import Mathlib

/-!
# Verification of the Simkl-Obsidian request/cache/auth core

Shallow embedding of the three engines of the Simkl-Obsidian plugin
(`src/main.js` and `src/main(fixes).js`):

* the TTL cache (`SimklCache` in `main(fixes).js`),
* the serialized request queue and retry executor
  (`SimklApi.makeRequest` / `processQueue` / `executeRequest` in
  `main(fixes).js`, `SimklPlugin.makeSimklRequest` / `processRequestQueue`
  in `main.js`),
* the PIN authentication modals (`PinAuthModal` in `main.js`,
  `SimklPinModal` in `main(fixes).js`).

Time (`Date.now()`) is passed explicitly; the single-threaded event loop is
modelled by executing the relevant callback steps in program order.
-/

namespace Simkl

/-! ## Error-message constants (`constants.js`, `ERROR_MESSAGES`) -/

def NO_CLIENT_ID : String :=
  "Client ID is required. Please configure it in plugin settings."

def NO_ACCESS_TOKEN : String :=
  "Access token is required for this operation. Please authenticate first."

def NETWORK_ERROR : String :=
  "Network error. Please check your connection and try again."

def API_ERROR : String := "API error occurred. Please try again later."

def TIMEOUT_ERROR : String := "Request timed out. Please try again."

def RATE_LIMITED : String := "Rate limited. Please wait before making more requests."

def NOT_FOUND : String := "Requested item not found."

def UNAUTHORIZED : String := "Unauthorized. Please check your credentials."

def FORBIDDEN : String := "Access forbidden. Please check your permissions."

/-- The `ConfigError` class of the spec's error taxonomy: missing client id
or missing token for a private call. -/
def isConfigError (msg : String) : Bool :=
  msg = NO_CLIENT_ID || msg = NO_ACCESS_TOKEN

/-! ## TTL cache (`SimklCache`, `main(fixes).js` lines 574-700)

The backing `Map` is modelled as a function from keys to optional entries;
`Date.now()` is an explicit `now : Nat` argument.  `get` both returns the
value and (on expiry) deletes the entry, so it returns the updated store. -/

structure CacheItem (α : Type) where
  data : α
  expiry : Nat
  timestamp : Nat

def CacheStore (α : Type) := String → Option (CacheItem α)

/-- The empty backing map (`new Map()`). -/
def emptyStore (α : Type) : CacheStore α := fun _ => none

/-- Model of `this.cache.set(key, item)` on the backing map. -/
def storeInsert {α : Type} (k : String) (item : CacheItem α) (st : CacheStore α) :
    CacheStore α :=
  fun k' => if k' = k then some item else st k'

/-- Model of `this.cache.delete(key)` on the backing map. -/
def storeDelete {α : Type} (k : String) (st : CacheStore α) : CacheStore α :=
  fun k' => if k' = k then none else st k'

/-- Model of `SimklCache.get` (`main(fixes).js` lines 583-597): a missing entry gives
`null`; an entry with `Date.now() > item.expiry` is deleted and gives `null`;
otherwise `item.data` is returned.  The second component is the backing map
after the call (lazy eviction). -/
def cacheGet {α : Type} (now : Nat) (k : String) (st : CacheStore α) :
    Option α × CacheStore α :=
  match st k with
  | none => (none, st)
  | some item =>
    if now > item.expiry then (none, storeDelete k st)
    else (some item.data, st)

/-- Model of `SimklCache.set` (`main(fixes).js` lines 602-610):
stores `{ data, expiry: Date.now() + timeout, timestamp: Date.now() }`. -/
def cacheSet {α : Type} (now : Nat) (k : String) (data : α) (timeout : Nat)
    (st : CacheStore α) : CacheStore α :=
  storeInsert k { data := data, expiry := now + timeout, timestamp := now } st

/-- Model of `SimklCache.has` (`main(fixes).js` lines 615-617):
`return this.get(key) !== null;` — implemented by calling `get`, so it
inherits `get`'s lazy eviction side effect. -/
def cacheHas {α : Type} (now : Nat) (k : String) (st : CacheStore α) :
    Bool × CacheStore α :=
  let r := cacheGet now k st
  (r.1.isSome, r.2)

/-! ## Request queue (`SimklApi`, `main(fixes).js` lines 252-571) -/

/-- A queued request as pushed by `SimklApi.makeRequest`
(`main(fixes).js` lines 381-391), minus the promise callbacks. -/
structure QueuedReq where
  endpoint : String
  requiresAuth : Bool
  method : String
  body : Option String
  deriving DecidableEq, Repr

/-- The slice of plugin settings the request layer reads.  Falsiness of the
JS strings `clientId` / `accessToken` is emptiness. -/
structure Settings where
  clientId : String
  accessToken : String
  maxRetries : Nat
  deriving Repr

/-- Model of `SimklApi.makeRequest` (`main(fixes).js` lines 371-392) up to the point
where the request is enqueued: the client-id and access-token guards run
before the push.  Returns the outcome of the call together with the request
queue after the call (unchanged when the guards throw). -/
def makeRequest (st : Settings) (req : QueuedReq) (queue : List QueuedReq) :
    Except String Unit × List QueuedReq :=
  if st.clientId = "" then (.error NO_CLIENT_ID, queue)
  else if req.requiresAuth && st.accessToken = "" then (.error NO_ACCESS_TOKEN, queue)
  else (.ok (), queue ++ [req])

/-- Observable events of one drain of `SimklApi.processQueue`
(`main(fixes).js` lines 397-421): each dequeued request is executed and
settled (`exec`, carrying the settlement), and the fixed rate-limit delay
is awaited (`delay`) when the queue is still non-empty afterwards. -/
inductive QueueEvent (ρ ε α : Type) where
  | exec (req : ρ) (result : Except ε α)
  | delay

/-- One drain of `SimklApi.processQueue` (`main(fixes).js` lines 397-421),
with the per-request work (`executeRequest` + promise settlement)
abstracted into `t`.  The `while` loop shifts the head, settles it, and
sleeps `rateLimitDelay` only if the queue is still non-empty. -/
def processQueue {ρ ε α : Type} (t : ρ → Except ε α) :
    List ρ → List (QueueEvent ρ ε α)
  | [] => []
  | r :: rest =>
    QueueEvent.exec r (t r) ::
      (if rest.isEmpty then [] else [QueueEvent.delay]) ++ processQueue t rest

/-- One drain of `SimklPlugin.processRequestQueue` (`main.js` lines
423-457): the same shift/settle skeleton, but the 200 ms inter-request
delay is awaited unconditionally at the end of every loop iteration —
there is no queue-non-empty guard before it. -/
def processRequestQueueM {ρ ε α : Type} (t : ρ → Except ε α) :
    List ρ → List (QueueEvent ρ ε α)
  | [] => []
  | r :: rest =>
    QueueEvent.exec r (t r) :: QueueEvent.delay :: processRequestQueueM t rest

/-- Number of inter-request delays waited in a drain trace. -/
def delayCount {ρ ε α : Type} : List (QueueEvent ρ ε α) → Nat
  | [] => 0
  | QueueEvent.exec _ _ :: es => delayCount es
  | QueueEvent.delay :: es => delayCount es + 1

/-- The settlements (request, result) recorded in a drain trace, in order. -/
def settlements {ρ ε α : Type} : List (QueueEvent ρ ε α) → List (ρ × Except ε α)
  | [] => []
  | QueueEvent.exec r res :: es => (r, res) :: settlements es
  | QueueEvent.delay :: es => settlements es

/-- The requests a drain trace performed transport work for, in order. -/
def execedReqs {ρ ε α : Type} (es : List (QueueEvent ρ ε α)) : List ρ :=
  (settlements es).map Prod.fst

/-! ## Retry executors

Two revisions are modelled: `SimklApi.executeRequest`
(`main(fixes).js` lines 426-502) and `SimklPlugin.makeSimklRequest`
(`main.js` lines 498-615).  The transport is a function from the attempt
number (starting at 1) to the outcome of that attempt's `fetch`. -/

/-- Outcome of one `fetch` as the executors observe it: an ok response with
a JSON payload, a non-ok response with its status and the error/message
field of its body (when parseable and non-empty), or a rejection carrying
the JS error's `name` and `message`. -/
inductive FetchResult (α : Type) where
  | ok (data : α)
  | status (code : Nat) (bodyMsg : Option String)
  | exn (name : String) (msg : String)

/-- Observable events of one executor run: a transport call for a given
attempt number, or a backoff sleep of a given length in ms. -/
inductive RetryEvent where
  | call (attempt : Nat)
  | sleep (ms : Nat)
  deriving DecidableEq, Repr

/-- Scan for `pat` as a contiguous run at any position of the text. -/
def containsAux (pat : List Char) : List Char → Bool
  | [] => pat.isEmpty
  | c :: cs => pat.isPrefixOf (c :: cs) || containsAux pat cs

/-- Substring test standing in for JS `String.prototype.includes`. -/
def strContains (s pat : String) : Bool :=
  containsAux pat.toList s.toList

/-- Model of `SimklApi.handleErrorResponse` (`main(fixes).js` lines 524-548);
`bodyMsg` is `errorData.error || errorData.message || ''` with `none` for an
unparseable body or an empty message. -/
def handleErrorResponse (code : Nat) (bodyMsg : Option String) : String :=
  if code = 401 then UNAUTHORIZED
  else if code = 403 then FORBIDDEN
  else if code = 404 then NOT_FOUND
  else if code = 412 then "Invalid Client ID. Please check your API key."
  else if code = 429 then RATE_LIMITED
  else bodyMsg.getD s!"HTTP {code}: {API_ERROR}"

/-- Exponential backoff of `SimklApi.executeRequest`:
`1000 * Math.pow(2, attempt - 1)`. -/
def backoffF (attempt : Nat) : Nat := 1000 * 2 ^ (attempt - 1)

/-- The network-failure substring test of `main(fixes).js` line 485:
`error.message.includes('Failed to fetch') || error.message.includes('NetworkError')`. -/
def isNetMsgF (msg : String) : Bool :=
  strContains msg "Failed to fetch" || strContains msg "NetworkError"

/-- Model of the retry loop of `SimklApi.executeRequest`
(`main(fixes).js` lines 443-501).  `attempt` is the loop counter, `fuel`
the number of loop iterations left (`maxRetries - attempt + 1`), and
`lastError` the `lastError` variable.  Per attempt: an ok response returns
its data; a non-ok response is classified by `handleErrorResponse`, and a
4xx status throws it — the throw is caught by the same attempt's `catch`,
which (for these messages) rethrows unless the message looks like a network
failure; other statuses set `lastError`, sleep the exponential backoff when
attempts remain, and loop.  A rejected fetch maps `AbortError`/`TimeoutError`
to the timeout message, retries network-looking messages (surfacing
`NETWORK_ERROR` on the last attempt), and rethrows anything else.  When the
loop exhausts its attempts, `lastError` (or `API_ERROR`) is thrown. -/
def executeRequestGo {α : Type} (t : Nat → FetchResult α) (maxRetries : Nat) :
    Nat → Nat → Option String → Except String α × List RetryEvent
  | _, 0, lastError => (.error (lastError.getD API_ERROR), [])
  | attempt, fuel + 1, _ =>
    match t attempt with
    | .ok d => (.ok d, [.call attempt])
    | .status code bodyMsg =>
      let msg := handleErrorResponse code bodyMsg
      if 400 ≤ code ∧ code < 500 then
        if isNetMsgF msg then
          if attempt < maxRetries then
            let r := executeRequestGo t maxRetries (attempt + 1) fuel (some msg)
            (r.1, .call attempt :: .sleep (backoffF attempt) :: r.2)
          else (.error NETWORK_ERROR, [.call attempt])
        else (.error msg, [.call attempt])
      else
        if attempt < maxRetries then
          let r := executeRequestGo t maxRetries (attempt + 1) fuel (some msg)
          (r.1, .call attempt :: .sleep (backoffF attempt) :: r.2)
        else
          let r := executeRequestGo t maxRetries (attempt + 1) fuel (some msg)
          (r.1, .call attempt :: r.2)
    | .exn name msg =>
      if name = "AbortError" || name = "TimeoutError" then
        (.error TIMEOUT_ERROR, [.call attempt])
      else if isNetMsgF msg then
        if attempt < maxRetries then
          let r := executeRequestGo t maxRetries (attempt + 1) fuel (some msg)
          (r.1, .call attempt :: .sleep (backoffF attempt) :: r.2)
        else (.error NETWORK_ERROR, [.call attempt])
      else (.error msg, [.call attempt])

/-- Model of `SimklApi.executeRequest` (`main(fixes).js` lines 426-502):
run the retry loop from attempt 1 with `this.settings.maxRetries`
iterations and no `lastError`. -/
def executeRequestF {α : Type} (t : Nat → FetchResult α) (maxRetries : Nat) :
    Except String α × List RetryEvent :=
  executeRequestGo t maxRetries 1 maxRetries none

/-- Number of transport calls in an executor trace. -/
def callCount (es : List RetryEvent) : Nat :=
  (es.filter fun e => match e with | .call _ => true | .sleep _ => false).length

/-- The backoff sleeps of an executor trace, in order. -/
def sleepsOf (es : List RetryEvent) : List Nat :=
  es.filterMap fun e => match e with | .call _ => none | .sleep ms => some ms

/-! ## The `main.js` retry loop (`SimklPlugin.makeSimklRequest`, lines 527-615) -/

def MAIN_AUTH_FAILED : String := "Authentication failed. Please check your access token."

def MAIN_FORBIDDEN : String := "Access forbidden. Check your API key or user permissions."

def MAIN_CLIENT_ID : String := "Client ID failed - check your simkl-api-key header."

def MAIN_NOT_FOUND : String := "User not found or list is empty."

def MAIN_TOO_MANY : String := "Too many requests. Please try again later."

def MAIN_SERVER_ERROR : String := "Simkl server error. Please try again later."

def MAIN_TIMEOUT : String := "Request timed out. Please check your internet connection."

def MAIN_NETWORK : String :=
  "Network error. Please check your internet connection and try again."

def MAIN_EXHAUSTED : String := "Failed to fetch data from Simkl after multiple attempts"

/-- Message thrown by `main.js` lines 544-579 for a non-ok response that is
not retried in place: the specific 401/403/412/404 messages, the messages
thrown on the last attempt for 429 and 5xx, and the generic
`Simkl API Error: HTTP <status>[ - <body error>]` for everything else. -/
def mainThrownMsg (code : Nat) (bodyMsg : Option String) : String :=
  if code = 401 then MAIN_AUTH_FAILED
  else if code = 403 then MAIN_FORBIDDEN
  else if code = 412 then MAIN_CLIENT_ID
  else if code = 404 then MAIN_NOT_FOUND
  else if code = 429 then MAIN_TOO_MANY
  else if 500 ≤ code then MAIN_SERVER_ERROR
  else
    match bodyMsg with
    | some m => s!"Simkl API Error: HTTP {code} - {m}"
    | none => s!"Simkl API Error: HTTP {code}"

/-- How the `catch` block of `main.js` lines 581-611 disposes of a caught
error, examined in source order: an `AbortError` becomes the timeout
message; a message containing one of the network-failure substrings takes
the network retry path; a message containing one of the four client-error
substrings is rethrown; everything else takes the generic retry path. -/
inductive CaughtAction where
  | timeoutAbort
  | netPath
  | terminalPath
  | otherPath
  deriving DecidableEq, Repr

/-- The classification performed by the `catch` block of `main.js`
lines 581-611 on the caught error's `name` and `message`. -/
def classifyCaught (name msg : String) : CaughtAction :=
  if name = "AbortError" then .timeoutAbort
  else if strContains msg "Failed to fetch" || strContains msg "Network request failed"
      || strContains msg "NetworkError" then .netPath
  else if strContains msg "Authentication failed" || strContains msg "Access forbidden"
      || strContains msg "Client ID failed" || strContains msg "User not found" then
    .terminalPath
  else .otherPath

/-- Model of the retry loop of `SimklPlugin.makeSimklRequest`
(`main.js` lines 527-615).  Per attempt: an ok response returns its data;
a 429 response sleeps `2000 * attempt` and loops while attempts remain, a
5xx response sleeps `1000 * attempt` and loops while attempts remain;
every other non-ok response (and 429/5xx on the last attempt) throws
`mainThrownMsg` into the attempt's `catch` block, which classifies it:
the four client-error messages are rethrown at once, network-looking
messages sleep `1000 * attempt` and loop (surfacing `MAIN_NETWORK` on the
last attempt), and any other message sleeps `1000 * attempt` and loops
while attempts remain, falling out of the loop otherwise.  A rejected
fetch enters the same `catch` block, with `AbortError` becoming
`MAIN_TIMEOUT`.  When the loop exhausts its attempts, `lastError` (or the
generic exhaustion message) is thrown. -/
def mainRetryGo {α : Type} (t : Nat → FetchResult α) (maxRetries : Nat) :
    Nat → Nat → Option String → Except String α × List RetryEvent
  | _, 0, lastError => (.error (lastError.getD MAIN_EXHAUSTED), [])
  | attempt, fuel + 1, _ =>
    let caught := fun (name msg : String) =>
      match classifyCaught name msg with
      | .timeoutAbort => (Except.error MAIN_TIMEOUT, [RetryEvent.call attempt])
      | .netPath =>
        if attempt < maxRetries then
          let r := mainRetryGo t maxRetries (attempt + 1) fuel (some msg)
          (r.1, RetryEvent.call attempt :: RetryEvent.sleep (1000 * attempt) :: r.2)
        else (Except.error MAIN_NETWORK, [RetryEvent.call attempt])
      | .terminalPath => (Except.error msg, [RetryEvent.call attempt])
      | .otherPath =>
        if attempt < maxRetries then
          let r := mainRetryGo t maxRetries (attempt + 1) fuel (some msg)
          (r.1, RetryEvent.call attempt :: RetryEvent.sleep (1000 * attempt) :: r.2)
        else (Except.error msg, [RetryEvent.call attempt])
    match t attempt with
    | .ok d => (.ok d, [.call attempt])
    | .status code bodyMsg =>
      if code = 429 ∧ attempt < maxRetries then
        let r := mainRetryGo t maxRetries (attempt + 1) fuel none
        (r.1, .call attempt :: .sleep (2000 * attempt) :: r.2)
      else if 500 ≤ code ∧ attempt < maxRetries then
        let r := mainRetryGo t maxRetries (attempt + 1) fuel none
        (r.1, .call attempt :: .sleep (1000 * attempt) :: r.2)
      else caught "Error" (mainThrownMsg code bodyMsg)
    | .exn name msg => caught name msg

/-- Model of `SimklPlugin.makeSimklRequest`'s retry loop from attempt 1. -/
def mainRetry {α : Type} (t : Nat → FetchResult α) (maxRetries : Nat) :
    Except String α × List RetryEvent :=
  mainRetryGo t maxRetries 1 maxRetries none

/-- Transport stub returning the same non-ok HTTP status on every attempt. -/
def alwaysStatus (code : Nat) : Nat → FetchResult String :=
  fun _ => .status code none

/-! ## Public/private classification of outbound calls -/

/-- Request headers as the request layer builds them; the fixed
`Content-Type`/`Accept` fields are omitted. -/
structure Headers where
  apiKey : String
  authorization : Option String
  deriving DecidableEq, Repr

/-- Model of `SimklApi.buildHeaders` (`main(fixes).js` lines 507-519): the
client id always, and a bearer token exactly when the request's
`requiresAuth` flag is set and a token is stored. -/
def buildHeaders (st : Settings) (requiresAuth : Bool) : Headers :=
  { apiKey := st.clientId,
    authorization :=
      if requiresAuth ∧ st.accessToken ≠ "" then some ("Bearer " ++ st.accessToken)
      else none }

/-- The URL `SimklPlugin.makeSimklRequest` targets. -/
inductive MainUrl where
  | stats (userId : String)
  | syncAll
  | userList (userId mediaType listType : String)
  deriving DecidableEq, Repr

/-- URL and bearer header chosen by `SimklPlugin.makeSimklRequest`. -/
structure MainPlan where
  url : MainUrl
  bearer : Option String
  deriving DecidableEq, Repr

/-- The request descriptor (parsed block config) `SimklPlugin` passes to
`makeSimklRequest` in `main.js`, restricted to the fields it reads. -/
structure MainConfig where
  type : String
  userId : String
  mediaType : String
  listType : String
  deriving DecidableEq, Repr

/-- Model of the URL/header selection of `SimklPlugin.makeSimklRequest`
(`main.js` lines 498-520): a `stats` request goes to the public stats
endpoint without a bearer; any other request goes to the authenticated
`/sync/all-items` endpoint with a bearer whenever an access token is
stored, and to the public user-list endpoint otherwise. -/
def makeSimklRequestPlan (st : Settings) (cfg : MainConfig) : MainPlan :=
  if cfg.type = "stats" then { url := .stats cfg.userId, bearer := none }
  else if st.accessToken ≠ "" then { url := .syncAll, bearer := some st.accessToken }
  else
    { url := .userList cfg.userId cfg.mediaType cfg.listType, bearer := none }

/-- Model of the authorization header of `SimklApiClient.makeRequest`
(`main(fixes).js` lines 788-806): a bearer is attached to every request
whenever an access token is stored, with no per-request classification. -/
def clientAuthHeader (st : Settings) : Option String :=
  if st.accessToken ≠ "" then some ("Bearer " ++ st.accessToken) else none

/-! ## PIN authentication modals

State-machine models of `PinAuthModal` (`main.js` lines 3-139) and
`SimklPinModal` (`main(fixes).js` lines 1444-1658).  `calls` records the
arguments of every `onComplete` invocation (the success flag); `fetches`
counts transport (poll) calls; timer fields record outstanding
`setTimeout` callbacks.  Steps are executed in event-loop order. -/

/-- Outcome of one poll fetch as the modals branch on it: a response whose
body contains `access_token`, or anything else that keeps the poll going
(a still-pending 400, an ok response without a token, a fetch error). -/
inductive PollOutcome where
  | token
  | pending
  deriving DecidableEq, Repr

/-- State of `PinAuthModal` (`main.js`). -/
structure PinModalM where
  isPolling : Bool
  timerPending : Bool
  successPending : Bool
  fetches : Nat
  calls : List Bool
  deriving DecidableEq, Repr

/-- State of `PinAuthModal` right after `onOpen`/`startPolling`
(`main.js` lines 83-92), before the first `pollForCompletion` body runs. -/
def pinInitM : PinModalM :=
  { isPolling := true, timerPending := false, successPending := false,
    fetches := 0, calls := [] }

/-- Model of `PinAuthModal.onClose` (`main.js` lines 133-138): stop the
polling flag and invoke `onComplete(false)` unconditionally.  No timer
handle is kept, so nothing is cleared. -/
def pinOnCloseM (s : PinModalM) : PinModalM :=
  { s with isPolling := false, calls := s.calls ++ [false] }

/-- Model of one run of `PinAuthModal.pollForCompletion`
(`main.js` lines 94-131): the fetch is performed unconditionally; a body
with `access_token` schedules the close-and-complete timeout; any other
outcome reschedules the poll — but only if `isPolling` is still set. -/
def pinPollM (o : PollOutcome) (s : PinModalM) : PinModalM :=
  let s1 := { s with fetches := s.fetches + 1 }
  match o with
  | .token => { s1 with successPending := true }
  | .pending => { s1 with timerPending := s1.isPolling }

/-- An outstanding poll timer of `PinAuthModal` fires: `pollForCompletion`
runs with the given outcome. -/
def pinTimerFireM (o : PollOutcome) (s : PinModalM) : PinModalM :=
  if s.timerPending then pinPollM o { s with timerPending := false } else s

/-- The close-and-complete timeout of `PinAuthModal`'s success path fires
(`main.js` lines 113-116): `this.close()` — which triggers `onClose` —
followed by `onComplete(true, data)`. -/
def pinSuccessFireM (s : PinModalM) : PinModalM :=
  if s.successPending then
    let s1 := pinOnCloseM { s with successPending := false }
    { s1 with calls := s1.calls ++ [true] }
  else s

/-- State of `SimklPinModal` (`main(fixes).js`). -/
structure PinModalF where
  isPolling : Bool
  pollTimeout : Bool
  pollAttempts : Nat
  statusSuccess : Bool
  successPending : Bool
  fetches : Nat
  calls : List Bool
  deriving DecidableEq, Repr

/-- State of `SimklPinModal` right after `onOpen`/`startPolling`
(`main(fixes).js` lines 1579-1585). -/
def pinInitF : PinModalF :=
  { isPolling := true, pollTimeout := false, pollAttempts := 0,
    statusSuccess := false, successPending := false, fetches := 0, calls := [] }

/-- Model of one run of `SimklPinModal.pollForToken`
(`main(fixes).js` lines 1587-1622): the entry guard returns without a
fetch when polling was stopped or attempts are exhausted (its
`updateStatus('timeout', …)` clears the success status class); otherwise
the attempt counter is bumped and the fetch performed — a token response
runs `handleAuthSuccess` (`status-success` class set, auto-close timeout
scheduled), every other outcome reschedules the poll. -/
def fPollF (maxAttempts : Nat) (o : PollOutcome) (s : PinModalF) : PinModalF :=
  if ¬s.isPolling ∨ maxAttempts ≤ s.pollAttempts then
    { s with statusSuccess := false }
  else
    let s1 := { s with pollAttempts := s.pollAttempts + 1, fetches := s.fetches + 1 }
    match o with
    | .token => { s1 with statusSuccess := true, successPending := true }
    | .pending => { s1 with pollTimeout := true }

/-- An outstanding poll timer of `SimklPinModal` fires: `pollForToken`
runs with the given outcome.  A cleared timer never fires. -/
def fTimerFireF (maxAttempts : Nat) (o : PollOutcome) (s : PinModalF) : PinModalF :=
  if s.pollTimeout then fPollF maxAttempts o { s with pollTimeout := false } else s

/-- Model of `SimklPinModal.onClose` (`main(fixes).js` lines 1645-1657):
stop polling, clear the outstanding poll timer, and invoke
`onComplete(false)` unless the `status-success` class is present. -/
def fOnCloseF (s : PinModalF) : PinModalF :=
  { s with
    isPolling := false, pollTimeout := false,
    calls := if s.statusSuccess then s.calls else s.calls ++ [false] }

/-- The auto-close timeout of `SimklPinModal.handleAuthSuccess` fires
(`main(fixes).js` lines 1633-1636): `this.close()` — triggering `onClose`,
whose failure callback is suppressed by the `status-success` class — then
`onComplete(true, tokenData)`. -/
def fSuccessFireF (s : PinModalF) : PinModalF :=
  if s.successPending then
    let s1 := fOnCloseF { s with successPending := false }
    { s1 with calls := s1.calls ++ [true] }
  else s

/-! ## Queue lemmas -/

theorem settlements_cons_exec {ρ ε α : Type} (r : ρ) (res : Except ε α)
    (es : List (QueueEvent ρ ε α)) :
    settlements (QueueEvent.exec r res :: es) = (r, res) :: settlements es := rfl

theorem settlements_append_delay {ρ ε α : Type} (b : Bool)
    (l : List (QueueEvent ρ ε α)) :
    settlements ((if b then [] else [QueueEvent.delay]) ++ l) = settlements l := by
  cases b <;> simp [settlements]

/-- A drain settles exactly the queued requests, in enqueue order, each
with its own transport result. -/
theorem settlements_processQueue {ρ ε α : Type} (t : ρ → Except ε α) (q : List ρ) :
    settlements (processQueue t q) = q.map (fun r => (r, t r)) := by
  induction q with
  | nil => rfl
  | cons r rest ih =>
    show settlements (QueueEvent.exec r (t r) ::
      ((if rest.isEmpty then [] else [QueueEvent.delay]) ++ processQueue t rest)) = _
    rw [settlements_cons_exec, settlements_append_delay, ih, List.map_cons]

/-- A drain performs transport work for exactly the queued requests, in
enqueue order, regardless of the transport's behaviour. -/
theorem execedReqs_processQueue {ρ ε α : Type} (t : ρ → Except ε α) (q : List ρ) :
    execedReqs (processQueue t q) = q := by
  rw [execedReqs, settlements_processQueue, List.map_map]
  have hcomp : (Prod.fst ∘ fun r : ρ => (r, t r)) = id := rfl
  rw [hcomp, List.map_id]

/-! ## Claim theorems -/

/-- C4: one drain of `SimklApi.processQueue` settles the queued requests
strictly in enqueue order, one at a time (the trace is a single sequence
of settlements), each with exactly its own transport result — so the
failure of any request changes neither the processing nor the order of
the others — and which requests are serviced, and in which order, is the
same for every transport behaviour. -/
theorem queue_fifo_settlements {ρ ε α : Type} (t t' : ρ → Except ε α) (q : List ρ) :
    settlements (processQueue t q) = q.map (fun r => (r, t r)) ∧
    execedReqs (processQueue t q) = execedReqs (processQueue t' q) := by
  refine ⟨settlements_processQueue t q, ?_⟩
  simp [execedReqs_processQueue]

/-- C9 counterexample: a drain of `SimklPlugin.processRequestQueue`
(`main.js` lines 430-454) over a queue holding a single request awaits
the 200 ms inter-request delay after that request settles — the
`await new Promise(resolve => setTimeout(resolve, 200))` at the end of
the loop body has no queue-non-empty guard, so the delay is paid even
for the final/only element, which the claim forbids. -/
theorem main_delay_after_final :
    processRequestQueueM (fun _ => (Except.ok "r" : Except String String)) ["q1"] =
      [QueueEvent.exec "q1" (Except.ok "r"), QueueEvent.delay] ∧
    delayCount (processRequestQueueM
      (fun _ => (Except.ok "r" : Except String String)) ["q1"]) = 1 :=
  ⟨rfl, rfl⟩

/-- C9 (amended): in one drain of `SimklApi.processQueue`
(`main(fixes).js`) the fixed inter-request delay is paid after a
settlement exactly when further requests remain — an empty queue produces
no events, a single request settles with no delay, and with at least two
requests a single delay separates the first settlement from the drain of
the rest.  In `SimklPlugin.processRequestQueue` (`main.js`) the 200 ms
delay is instead awaited unconditionally after every settlement, the
final/only one included. -/
theorem delay_only_between_requests {ρ ε α : Type} (t : ρ → Except ε α)
    (r r' : ρ) (q : List ρ) :
    (processQueue t ([] : List ρ) = [] ∧
     processQueue t [r] = [QueueEvent.exec r (t r)] ∧
     processQueue t (r :: r' :: q) =
       QueueEvent.exec r (t r) :: QueueEvent.delay :: processQueue t (r' :: q)) ∧
    (processRequestQueueM t ([] : List ρ) = [] ∧
     processRequestQueueM t [r] = [QueueEvent.exec r (t r), QueueEvent.delay] ∧
     processRequestQueueM t (r :: r' :: q) =
       QueueEvent.exec r (t r) :: QueueEvent.delay :: processRequestQueueM t (r' :: q)) := by
  refine ⟨⟨rfl, ?_, ?_⟩, rfl, rfl, rfl⟩ <;> simp [processQueue]

/-- C3: a request flagged `requiresAuth` submitted to `SimklApi.makeRequest`
while no access token is configured is rejected with a `ConfigError`
message by the guards that run before the enqueue, the queue is left
unchanged, and no transport call is ever performed for it during a drain
of that queue. -/
theorem requires_auth_rejects_before_enqueue (st : Settings) (req : QueuedReq)
    (queue : List QueuedReq) (h1 : req.requiresAuth = true)
    (h2 : st.accessToken = "") :
    (∃ e, (makeRequest st req queue).1 = .error e ∧ isConfigError e = true) ∧
    (makeRequest st req queue).2 = queue ∧
    ∀ t : QueuedReq → Except String String,
      req ∉ queue → req ∉ execedReqs (processQueue t (makeRequest st req queue).2) := by
  refine ⟨?_, ?_, ?_⟩
  · by_cases hc : st.clientId = ""
    · exact ⟨NO_CLIENT_ID, by simp [makeRequest, hc], by decide⟩
    · exact ⟨NO_ACCESS_TOKEN, by simp [makeRequest, hc, h1, h2], by decide⟩
  · by_cases hc : st.clientId = "" <;> simp [makeRequest, hc, h1, h2]
  · intro t hnot
    by_cases hc : st.clientId = "" <;>
      simp [makeRequest, hc, h1, h2, execedReqs_processQueue, hnot]

/-- Closed instance of `requires_auth_rejects_before_enqueue`: a private
sync request with no stored token leaves the queue empty and receives no
transport call. -/
theorem requires_auth_rejects_witness :
    (makeRequest ⟨"cid", "", 3⟩ ⟨"/sync/all-items", true, "GET", none⟩ []).2 = [] ∧
    (⟨"/sync/all-items", true, "GET", none⟩ : QueuedReq) ∉
      execedReqs (processQueue (fun _ => (Except.ok "r" : Except String String))
        (makeRequest ⟨"cid", "", 3⟩ ⟨"/sync/all-items", true, "GET", none⟩ []).2) :=
  ⟨(requires_auth_rejects_before_enqueue ⟨"cid", "", 3⟩
      ⟨"/sync/all-items", true, "GET", none⟩ [] rfl rfl).2.1,
   (requires_auth_rejects_before_enqueue ⟨"cid", "", 3⟩
      ⟨"/sync/all-items", true, "GET", none⟩ [] rfl rfl).2.2 _ (by simp)⟩

/-- C5: immediately after `SimklCache.set` with a positive ttl, `get` at
the same instant returns the stored value; at any instant strictly past
the stored expiry, `get` returns `null` and has deleted the entry from
the backing map. -/
theorem cache_set_get_expiry {α : Type} (now : Nat) (k : String) (v : α)
    (ttl : Nat) (st : CacheStore α) (h : 0 < ttl) (later : Nat)
    (h2 : now + ttl < later) :
    (cacheGet now k (cacheSet now k v ttl st)).1 = some v ∧
    (cacheGet later k (cacheSet now k v ttl st)).1 = none ∧
    (cacheGet later k (cacheSet now k v ttl st)).2 k = none := by
  have hk : (cacheSet now k v ttl st) k =
      some { data := v, expiry := now + ttl, timestamp := now } := by
    simp [cacheSet, storeInsert]
  refine ⟨?_, ?_, ?_⟩
  · simp only [cacheGet, hk]
    rw [if_neg (by omega)]
  · simp only [cacheGet, hk]
    rw [if_pos (by omega)]
  · simp only [cacheGet, hk]
    rw [if_pos (by omega)]
    simp [storeDelete]

/-- Closed instance of `cache_set_get_expiry` at `ttl = 10`. -/
theorem cache_set_get_expiry_witness :
    (cacheGet 0 "k" (cacheSet 0 "k" (7 : Nat) 10 (emptyStore Nat))).1 = some 7 ∧
    (cacheGet 11 "k" (cacheSet 0 "k" (7 : Nat) 10 (emptyStore Nat))).1 = none ∧
    (cacheGet 11 "k" (cacheSet 0 "k" (7 : Nat) 10 (emptyStore Nat))).2 "k" = none :=
  cache_set_get_expiry 0 "k" 7 10 (emptyStore Nat) (by decide) 11 (by decide)

/-- C10: `SimklCache.has` returns exactly whether `get` returns a
non-absent value and leaves the store exactly as `get` does — it is
implemented by calling `get` — so `has` on an expired entry is not
read-only: the entry is evicted from the backing map as a side effect. -/
theorem has_get_agreement {α : Type} (now : Nat) (k : String) (st : CacheStore α) :
    ((cacheHas now k st).1 = (cacheGet now k st).1.isSome ∧
     (cacheHas now k st).2 = (cacheGet now k st).2) ∧
    ∀ item : CacheItem α, st k = some item → item.expiry < now →
      (cacheHas now k st).2 k = none := by
  refine ⟨⟨rfl, rfl⟩, ?_⟩
  intro item hst hexp
  simp [cacheHas, cacheGet, hst, hexp, storeDelete]

/-- Closed instance of `has_get_agreement`: `has` on an entry stored at
time 0 with ttl 5, queried at time 10, evicts the entry. -/
theorem has_get_agreement_witness :
    (cacheHas 10 "k" (cacheSet 0 "k" (7 : Nat) 5 (emptyStore Nat))).2 "k" = none :=
  (has_get_agreement 10 "k" (cacheSet 0 "k" (7 : Nat) 5 (emptyStore Nat))).2
    { data := 7, expiry := 5, timestamp := 0 }
    (by simp [cacheSet, storeInsert]) (by decide)

/-! ## Executor trace lemmas -/

theorem callCount_call (a : Nat) (es : List RetryEvent) :
    callCount (RetryEvent.call a :: es) = callCount es + 1 := by
  simp [callCount, List.filter_cons]

theorem callCount_sleep (ms : Nat) (es : List RetryEvent) :
    callCount (RetryEvent.sleep ms :: es) = callCount es := by
  simp [callCount, List.filter_cons]

theorem sleepsOf_call (a : Nat) (es : List RetryEvent) :
    sleepsOf (RetryEvent.call a :: es) = sleepsOf es := by
  simp [sleepsOf]

theorem sleepsOf_sleep (ms : Nat) (es : List RetryEvent) :
    sleepsOf (RetryEvent.sleep ms :: es) = ms :: sleepsOf es := by
  simp [sleepsOf]

theorem classifyCaught_tooMany :
    classifyCaught "Error" MAIN_TOO_MANY = CaughtAction.otherPath := by decide

/-- For every 4xx status, the message `handleErrorResponse` produces does
not look like a network failure to the `catch` block of
`SimklApi.executeRequest`. -/
theorem isNetMsgF_4xx : ∀ d : Nat, d < 100 →
    isNetMsgF (handleErrorResponse (400 + d) none) = false := by decide

/-- One loop iteration of `SimklPlugin.makeSimklRequest` under a constant
HTTP 429 transport, when attempts remain: a transport call, a
`2000 * attempt` backoff sleep, then the next iteration. -/
theorem mainRetryGo429_step (maxR attempt fuel : Nat) (hlt : attempt < maxR)
    (le : Option String) :
    mainRetryGo (alwaysStatus 429) maxR attempt (fuel + 1) le =
      ((mainRetryGo (alwaysStatus 429) maxR (attempt + 1) fuel none).1,
        RetryEvent.call attempt :: RetryEvent.sleep (2000 * attempt) ::
          (mainRetryGo (alwaysStatus 429) maxR (attempt + 1) fuel none).2) := by
  simp only [mainRetryGo, alwaysStatus, hlt, true_and, and_true, if_true, ite_true]

/-- The last loop iteration of `SimklPlugin.makeSimklRequest` under a
constant HTTP 429 transport: the rate-limit message is thrown, caught,
and surfaced after one final transport call. -/
theorem mainRetryGo429_last (maxR : Nat) (le : Option String) :
    mainRetryGo (alwaysStatus 429) maxR maxR 1 le =
      (Except.error MAIN_TOO_MANY, [RetryEvent.call maxR]) := by
  have hmsg : mainThrownMsg 429 none = MAIN_TOO_MANY := by decide
  simp only [mainRetryGo, alwaysStatus, hmsg, classifyCaught_tooMany, Nat.lt_irrefl,
    if_false, ite_false, false_and, and_false]

/-- With every attempt answered HTTP 429, `SimklPlugin.makeSimklRequest`
surfaces the rate-limit message after making a transport call for every
remaining attempt, sleeping `2000 * attempt` between consecutive calls. -/
theorem mainRetry429_aux (maxR : Nat) : ∀ fuel attempt : Nat,
    attempt + fuel = maxR + 1 → 1 ≤ fuel →
    (mainRetryGo (alwaysStatus 429) maxR attempt fuel none).1 =
      Except.error MAIN_TOO_MANY ∧
    callCount (mainRetryGo (alwaysStatus 429) maxR attempt fuel none).2 = fuel ∧
    sleepsOf (mainRetryGo (alwaysStatus 429) maxR attempt fuel none).2 =
      (List.range' attempt (fuel - 1)).map (fun a => 2000 * a) := by
  intro fuel
  induction fuel with
  | zero => intro attempt _ h1; exact absurd h1 (by omega)
  | succ f ihf =>
    intro attempt h _
    by_cases hlt : attempt < maxR
    · have hf : 1 ≤ f := by omega
      have ih := ihf (attempt + 1) (by omega) hf
      rw [mainRetryGo429_step maxR attempt f hlt none]
      refine ⟨ih.1, ?_, ?_⟩
      · show callCount (RetryEvent.call attempt :: RetryEvent.sleep (2000 * attempt) ::
          (mainRetryGo (alwaysStatus 429) maxR (attempt + 1) f none).2) = _
        rw [callCount_call, callCount_sleep, ih.2.1]
      · show sleepsOf (RetryEvent.call attempt :: RetryEvent.sleep (2000 * attempt) ::
          (mainRetryGo (alwaysStatus 429) maxR (attempt + 1) f none).2) = _
        rw [sleepsOf_call, sleepsOf_sleep, ih.2.2]
        obtain ⟨f', rfl⟩ : ∃ f', f = f' + 1 := ⟨f - 1, by omega⟩
        have hr : List.range' attempt (f' + 1) = attempt :: List.range' (attempt + 1) f' :=
          List.range'_succ attempt f' 1
        simp [hr]
    · have ha : attempt = maxR := by omega
      have hf0 : f = 0 := by omega
      subst ha hf0
      rw [mainRetryGo429_last attempt none]
      refine ⟨rfl, ?_, ?_⟩ <;> simp [callCount, sleepsOf, List.filter_cons]

/-- C2 counterexample: with `maxRetries = 3` and a transport answering
HTTP 429 on every attempt, `SimklApi.executeRequest` makes exactly one
transport call and surfaces the rate-limit error with no backoff retry —
the 4xx guard at `main(fixes).js` line 465 captures 429 before the retry
logic is reached, although the attempt counter (1) is below the maximum
(3). -/
theorem fixes_429_not_retried :
    executeRequestF (alwaysStatus 429) 3 =
      (Except.error RATE_LIMITED, [RetryEvent.call 1]) ∧
    callCount (executeRequestF (alwaysStatus 429) 3).2 = 1 := by
  constructor <;> rfl

/-- C2 (amended): `SimklPlugin.makeSimklRequest` (`main.js`) retries an
HTTP 429 response with a `2000 * attempt` backoff while the attempt
counter is below `maxRetries`, and surfaces the rate-limit error only
after exhausting all attempts; `SimklApi.executeRequest`
(`main(fixes).js`) instead treats 429 as a terminal client error,
surfacing the rate-limit error after a single attempt with no retry. -/
theorem rate_limit_429_behaviour (maxR : Nat) (h : 1 ≤ maxR) :
    (mainRetry (alwaysStatus 429) maxR).1 = Except.error MAIN_TOO_MANY ∧
    callCount (mainRetry (alwaysStatus 429) maxR).2 = maxR ∧
    sleepsOf (mainRetry (alwaysStatus 429) maxR).2 =
      (List.range' 1 (maxR - 1)).map (fun a => 2000 * a) ∧
    executeRequestF (alwaysStatus 429) maxR =
      (Except.error RATE_LIMITED, [RetryEvent.call 1]) := by
  have haux := mainRetry429_aux maxR maxR 1 (by omega) h
  refine ⟨haux.1, haux.2.1, haux.2.2, ?_⟩
  obtain ⟨m, rfl⟩ : ∃ m, maxR = m + 1 := ⟨maxR - 1, by omega⟩
  have hmsg : handleErrorResponse 429 none = RATE_LIMITED := by decide
  have hnet : isNetMsgF RATE_LIMITED = false := by decide
  simp [executeRequestF, executeRequestGo, alwaysStatus, hmsg, hnet]

/-- Closed instance of `rate_limit_429_behaviour` at `maxRetries = 3`. -/
theorem rate_limit_429_behaviour_witness :
    (mainRetry (alwaysStatus 429) 3).1 = Except.error MAIN_TOO_MANY ∧
    callCount (mainRetry (alwaysStatus 429) 3).2 = 3 ∧
    sleepsOf (mainRetry (alwaysStatus 429) 3).2 = [2000, 4000] ∧
    executeRequestF (alwaysStatus 429) 3 =
      (Except.error RATE_LIMITED, [RetryEvent.call 1]) := by
  have h := rate_limit_429_behaviour 3 (by decide)
  exact ⟨h.1, h.2.1, by rw [h.2.2.1]; decide, h.2.2.2⟩

/-- C8 counterexample: with `maxRetries = 3` and a transport answering
HTTP 400 on every attempt, `SimklPlugin.makeSimklRequest` (`main.js`)
makes three transport calls with backoff sleeps in between — an
unlisted 4xx status falls into the generic retry path, not the
single-attempt rejection the claim requires. -/
theorem main_400_retried :
    callCount (mainRetry (alwaysStatus 400) 3).2 = 3 ∧
    sleepsOf (mainRetry (alwaysStatus 400) 3).2 = [1000, 2000] := by
  constructor <;> rfl

/-- C8 (amended): `SimklApi.executeRequest` (`main(fixes).js`) rejects
every response with a 4xx status (429 included) after exactly one
transport attempt, surfacing its classified error with no retry;
`SimklPlugin.makeSimklRequest` (`main.js`) does so only for the four
statuses 401, 403, 404 and 412 — other 4xx statuses are retried there. -/
theorem client_error_single_attempt (code maxR : Nat) (h1 : 1 ≤ maxR)
    (h4 : 400 ≤ code) (h5 : code < 500) :
    executeRequestF (alwaysStatus code) maxR =
      (Except.error (handleErrorResponse code none), [RetryEvent.call 1]) ∧
    (code = 401 ∨ code = 403 ∨ code = 404 ∨ code = 412 →
      callCount (mainRetry (alwaysStatus code) maxR).2 = 1) := by
  obtain ⟨m, rfl⟩ : ∃ m, maxR = m + 1 := ⟨maxR - 1, by omega⟩
  constructor
  · have hnet := isNetMsgF_4xx (code - 400) (by omega)
    rw [show 400 + (code - 400) = code from by omega] at hnet
    simp [executeRequestF, executeRequestGo, alwaysStatus, h4, h5, hnet]
  · rintro (rfl | rfl | rfl | rfl) <;>
      simp [mainRetry, mainRetryGo, alwaysStatus, mainThrownMsg, classifyCaught,
        strContains, containsAux, callCount, List.filter_cons]

/-- Closed instance of `client_error_single_attempt` at status 404,
`maxRetries = 3`: both executors reject a 404 after one attempt. -/
theorem client_error_single_attempt_witness :
    executeRequestF (alwaysStatus 404) 3 =
      (Except.error (handleErrorResponse 404 none), [RetryEvent.call 1]) ∧
    callCount (mainRetry (alwaysStatus 404) 3).2 = 1 :=
  ⟨(client_error_single_attempt 404 3 (by decide) (by decide) (by decide)).1,
   (client_error_single_attempt 404 3 (by decide) (by decide) (by decide)).2
     (Or.inr (Or.inr (Or.inl rfl)))⟩

/-- C6 counterexample: the same public list descriptor
(`type: list`, user `u1`, `tv`/`watching`) is sent by
`SimklPlugin.makeSimklRequest` (`main.js`) to the public user-list
endpoint without a bearer when no token is stored, but to the private
`/sync/all-items` endpoint with a bearer as soon as a token is stored —
the stored token silently converts the public call into a private one. -/
theorem token_escalates_public_call :
    makeSimklRequestPlan ⟨"cid", "", 3⟩ ⟨"list", "u1", "tv", "watching"⟩ =
      { url := MainUrl.userList "u1" "tv" "watching", bearer := none } ∧
    makeSimklRequestPlan ⟨"cid", "tok", 3⟩ ⟨"list", "u1", "tv", "watching"⟩ =
      { url := MainUrl.syncAll, bearer := some "tok" } ∧
    (makeSimklRequestPlan ⟨"cid", "tok", 3⟩ ⟨"list", "u1", "tv", "watching"⟩).bearer ≠
      none := by
  refine ⟨by decide, by decide, by decide⟩

/-- C6 (amended): only `SimklApi` (`main(fixes).js`) fixes the
classification at request construction: `buildHeaders` never attaches a
bearer to a `requiresAuth = false` request even when a token is stored,
and attaches it to a `requiresAuth = true` request when one is;
`SimklPlugin.makeSimklRequest` (`main.js`) and `SimklApiClient.makeRequest`
(`main(fixes).js`) instead decide on token presence alone —
`SimklApiClient` attaches the bearer to every request whenever a token is
stored. -/
theorem classification_fixed_by_flag (st : Settings) (htok : st.accessToken ≠ "") :
    (buildHeaders st false).authorization = none ∧
    (buildHeaders st true).authorization = some ("Bearer " ++ st.accessToken) ∧
    clientAuthHeader st = some ("Bearer " ++ st.accessToken) := by
  refine ⟨?_, ?_, ?_⟩ <;> simp [buildHeaders, clientAuthHeader, htok]

/-- Closed instance of `classification_fixed_by_flag` with token `tok`. -/
theorem classification_fixed_by_flag_witness :
    (buildHeaders ⟨"cid", "tok", 3⟩ false).authorization = none ∧
    (buildHeaders ⟨"cid", "tok", 3⟩ true).authorization = some ("Bearer " ++ "tok") ∧
    clientAuthHeader ⟨"cid", "tok", 3⟩ = some ("Bearer " ++ "tok") :=
  classification_fixed_by_flag ⟨"cid", "tok", 3⟩ (by decide)

/-- C1: on the ordinary success path of `PinAuthModal` (`main.js`) — the
first poll response carries `access_token`, then the scheduled
close-and-complete timeout fires — the completion callback is invoked
twice: once with the failure flag (from `onClose`, triggered by the
success path's own `this.close()`, which calls `onComplete(false)`
unconditionally) and then once with the success flag.  The claim requires
exactly one invocation, with the success flag. -/
theorem pin_modal_success_double_callback :
    (pinSuccessFireM (pinPollM PollOutcome.token pinInitM)).calls = [false, true] ∧
    (pinSuccessFireM (pinPollM PollOutcome.token pinInitM)).calls ≠ [true] ∧
    (pinSuccessFireM (pinPollM PollOutcome.token pinInitM)).fetches = 1 := by
  decide

/-- C7 counterexample: in `PinAuthModal` (`main.js`), after a first
pending poll schedules the next one, closing the modal (cancellation)
fires the failure callback and stops the polling flag but clears no timer
— `onClose` keeps no handle — so when time advances past the next
scheduled poll, `pollForCompletion` runs and performs another transport
call (`fetches` goes from 1 to 2) after cancellation. -/
theorem cancel_poll_still_fetches :
    (pinOnCloseM (pinPollM PollOutcome.pending pinInitM)).calls = [false] ∧
    (pinOnCloseM (pinPollM PollOutcome.pending pinInitM)).fetches = 1 ∧
    (pinOnCloseM (pinPollM PollOutcome.pending pinInitM)).timerPending = true ∧
    (pinTimerFireM PollOutcome.pending
      (pinOnCloseM (pinPollM PollOutcome.pending pinInitM))).fetches = 2 := by
  decide

/-- C7 (amended): in `SimklPinModal` (`main(fixes).js`), cancellation
mid-poll clears the outstanding poll timer, invokes the completion
callback exactly once with the failure flag, performs no transport call
itself, and a timer firing afterwards is a no-op — no further transport
calls occur as time advances.  In `PinAuthModal` (`main.js`) no timer
handle is kept: a poll already scheduled at cancellation still performs
one more transport call, though it schedules no further poll afterwards. -/
theorem cancel_clears_timer (s : PinModalF) (maxA : Nat) (o : PollOutcome)
    (m : PinModalM) (o' : PollOutcome) (hs : s.statusSuccess = false)
    (hm : m.timerPending = true) :
    (fOnCloseF s).pollTimeout = false ∧
    (fOnCloseF s).calls = s.calls ++ [false] ∧
    (fOnCloseF s).fetches = s.fetches ∧
    fTimerFireF maxA o (fOnCloseF s) = fOnCloseF s ∧
    (pinTimerFireM o' (pinOnCloseM m)).fetches = m.fetches + 1 ∧
    (pinTimerFireM o' (pinOnCloseM m)).timerPending = false := by
  refine ⟨rfl, ?_, rfl, ?_, ?_, ?_⟩
  · simp [fOnCloseF, hs]
  · simp [fTimerFireF, fOnCloseF]
  · cases o' <;> simp [pinTimerFireM, pinOnCloseM, pinPollM, hm]
  · cases o' <;> simp [pinTimerFireM, pinOnCloseM, pinPollM, hm]

/-- A `SimklPinModal` state mid-poll: one pending poll done, the next one
scheduled, no success yet. -/
def midPollF : PinModalF :=
  { isPolling := true, pollTimeout := true, pollAttempts := 1,
    statusSuccess := false, successPending := false, fetches := 1, calls := [] }

/-- Closed instance of `cancel_clears_timer` at a concrete mid-poll state
of each modal. -/
theorem cancel_clears_timer_witness :
    (fOnCloseF midPollF).pollTimeout = false ∧
    (fOnCloseF midPollF).calls = [false] ∧
    (fOnCloseF midPollF).fetches = 1 ∧
    fTimerFireF 60 PollOutcome.pending (fOnCloseF midPollF) = fOnCloseF midPollF ∧
    (pinTimerFireM PollOutcome.pending
      (pinOnCloseM (pinPollM PollOutcome.pending pinInitM))).fetches = 2 ∧
    (pinTimerFireM PollOutcome.pending
      (pinOnCloseM (pinPollM PollOutcome.pending pinInitM))).timerPending = false := by
  have h := cancel_clears_timer midPollF 60 PollOutcome.pending
    (pinPollM PollOutcome.pending pinInitM) PollOutcome.pending rfl rfl
  exact ⟨h.1, h.2.1, h.2.2.1, h.2.2.2.1, h.2.2.2.2.1, h.2.2.2.2.2⟩

end Simkl

